import Mathlib

/-!
# Verification of the Texas critical-infrastructure POI extractor

Shallow embedding of `src/project/data/raw/POI/extract_texas_infrastructure.py`.

Modelling conventions:

* A pandas/geopandas dataframe is a `Frame`: a list of column names
  (`cols`, frame-level column presence, as pandas has it) together with a
  list of rows; a row is an association list from column name to `Cell`.
  Reading a column a row has no entry for yields `Cell.null` (pandas NaN).
  Pandas `drop_duplicates` hashes NaN as equal to NaN, so representing NaN
  by the single constructor `Cell.null` matches its behaviour.
* Floating-point coordinates are modelled as `Rat`.  Shapely's centroid of
  a non-empty geometry is some pair of finite reals; we record a geometry
  abstractly as `nonempty cx cy` carrying that centroid (the claims never
  depend on the centroid formula, only on finite-vs-empty).  The centroid
  of an empty geometry is `POINT EMPTY`, whose `.x`/`.y` are NaN
  (`Cell.null` here).
* The external OSMnx client (`ox.features_from_place`) is a parameter
  `client : Mode → String → Except String Frame`: it either raises (the
  `Except.error` case, carrying the message) or returns a dataframe whose
  MultiIndex `(element_type, osmid)` is modelled by row entries that
  `reset_index` exposes by adding the two column names.
* File-system effects of `save_output` are a parameter `FsEnv` recording
  whether `to_csv` raises, whether `os.path.exists` holds afterwards, and
  whether the GeoJSON `to_file` raises.
-/

/-- A shapely geometry, abstracted to what the pipeline observes: a
non-empty geometry carries its centroid `(cx, cy)` (for a point geometry
that is the point itself); an empty/degenerate geometry has centroid
`POINT EMPTY`. -/
inductive CellGeometry where
  | nonempty (cx cy : Rat)
  | empty
deriving DecidableEq, Repr

/-- One dataframe cell: a string tag value, a numeric value, a geometry,
or NaN / missing (`null`). -/
inductive Cell where
  | str (s : String)
  | num (q : Rat)
  | geom (g : CellGeometry)
  | null
deriving DecidableEq, Repr

/-- A dataframe row: association list from column name to cell value. -/
abbrev Row := List (String × Cell)

/-- Read a column of a row; a column the row has no entry for reads as NaN. -/
def Row.get : Row → String → Cell
  | [], _ => Cell.null
  | (c, v) :: r, c2 => if c = c2 then v else Row.get r c2

/-- Column assignment `df[c] = v` at row level: the new binding shadows
(and removes) any previous binding for `c`. -/
def Row.set (r : Row) (c : String) (v : Cell) : Row :=
  (c, v) :: r.filter (fun p => p.1 ≠ c)

/-- Projection `df[cols]` at row level: the row restricted to the listed columns. -/
def Row.project (cols : List String) (r : Row) : Row :=
  cols.map (fun c => (c, r.get c))

/-- A dataframe: the columns present in the frame, and its rows. -/
structure Frame where
  cols : List String
  rows : List Row
deriving DecidableEq, Repr

instance : Inhabited Frame := ⟨⟨[], []⟩⟩

/-- Model of `reset_index()` on an OSMnx frame: the MultiIndex levels
`element_type`, `osmid` become ordinary (leading) columns. -/
def Frame.resetIndex (f : Frame) : Frame :=
  { f with cols := "element_type" :: "osmid" :: f.cols }

/-!
## Configuration constants (lines 28-62 of the source)
-/

/-- The two configured regions (`LOCATIONS`, line 31). -/
def LOCATIONS : List String := ["Houston, Texas, USA", "Dallas, Texas, USA"]

/-- Constant `HOUSTON_DALLAS_LAT_BOUNDS` (line 54). -/
def HOUSTON_DALLAS_LAT_BOUNDS : Rat × Rat := (29, 33.5)

/-- Constant `HOUSTON_DALLAS_LON_BOUNDS` (line 55). -/
def HOUSTON_DALLAS_LON_BOUNDS : Rat × Rat := (-97.5, -94.5)

/-- Constant `KEEP_COLUMNS` (lines 58-62). -/
def KEEP_COLUMNS : List String :=
  ["name", "power", "amenity", "man_made", "telecom", "aeroway",
    "generator:source", "addr:full", "addr:street", "addr:city",
    "operator", "capacity", "voltage", "lat", "lon", "city_source"]

/-- The five designated infrastructure-category columns
(`tag_columns`, line 175). -/
def tagColumns : List String := ["power", "amenity", "man_made", "telecom", "aeroway"]

/-- The temporal mode the OSMnx settings select: the historical
`[date:"2022-06-01..."]` query or the plain current-data query.
`configure_osmnx_historical` / `configure_osmnx_current` (lines 69-82)
are modelled as choosing which mode the client is called under. -/
inductive Mode where
  | historical
  | current
deriving DecidableEq, Repr

/-!
## Region Fetcher (lines 96-121)
-/

/-- Function `fetch_infrastructure_data` (lines 96-121): call the external client;
an exception is caught at this per-region boundary and converted to `none`
(the code's `None`), as is an empty result. -/
def fetch_infrastructure_data (client : Mode → String → Except String Frame)
    (mode : Mode) (location : String) : Option Frame :=
  match client mode location with
  | Except.error _ => none
  | Except.ok gdf => if gdf.rows.length = 0 then none else some gdf

/-!
## Geometry Normalizer (lines 124-149)
-/

/-- The centroid of the geometry stored in a cell, when the cell is a
non-empty geometry. -/
def cellCentroid : Cell → Option (Rat × Rat)
  | Cell.geom (CellGeometry.nonempty cx cy) => some (cx, cy)
  | _ => none

/-- One row of `convert_to_centroids`: replace the geometry by its
centroid and add `lon` / `lat` columns holding the centroid's x / y
(NaN, i.e. `Cell.null`, when the centroid is `POINT EMPTY`). -/
def centroidRow (r : Row) : Row :=
  match cellCentroid (r.get "geometry") with
  | some (cx, cy) =>
      ((r.set "geometry" (Cell.geom (CellGeometry.nonempty cx cy))).set
        "lon" (Cell.num cx)).set "lat" (Cell.num cy)
  | none =>
      ((r.set "geometry" (Cell.geom CellGeometry.empty)).set
        "lon" Cell.null).set "lat" Cell.null

/-- Function `convert_to_centroids` (lines 124-149): `None`/empty input yields
`None`; otherwise every row's geometry is replaced by its centroid and
`lon`, `lat` columns are added.  (The CRS defaulting at lines 138-139 has
no observable effect in this model.)  No row is ever removed. -/
def convert_to_centroids (gdf : Frame) : Option Frame :=
  if gdf.rows.length = 0 then none
  else some { cols := gdf.cols ++ ["lon", "lat"], rows := gdf.rows.map centroidRow }

/-!
## Record Cleaner (lines 152-197)
-/

/-- Function `clean_and_filter` (lines 152-197): stamp `city_source`, expose the
index columns, drop rows with no non-null value in any of the five
category columns — but only when at least one of those columns exists in
the frame (`if existing_tag_cols:`, line 180) — then project onto the
kept columns. -/
def clean_and_filter (gdf : Frame) (city_name : String) : Option Frame :=
  if gdf.rows.length = 0 then none
  else
    let g1 : Frame :=
      { cols := gdf.cols ++ ["city_source"],
        rows := gdf.rows.map (fun r => r.set "city_source" (Cell.str city_name)) }
    let g2 := g1.resetIndex
    let existing_tag_cols := tagColumns.filter (fun c => c ∈ g2.cols)
    let rows3 :=
      if existing_tag_cols.isEmpty then g2.rows
      else g2.rows.filter (fun r =>
        existing_tag_cols.any (fun c => r.get c ≠ Cell.null))
    let available0 := KEEP_COLUMNS.filter (fun c => c ∈ g2.cols)
    let available1 := if "osmid" ∈ g2.cols then "osmid" :: available0 else available0
    let available_cols :=
      if "element_type" ∈ g2.cols then "element_type" :: available1 else available1
    some { cols := available_cols, rows := rows3.map (Row.project available_cols) }

/-!
## Verifier (lines 200-266)
-/

/-- The report dictionary built by `verify_data` (lines 210-217), with the
`check_file` slot `main` fills in afterwards (line 405). -/
structure Report where
  check_volume : Bool
  check_coordinates : Bool
  check_location_sanity : Bool
  check_file : Bool
  total_records : Nat
  errors : List String
deriving DecidableEq, Repr

/-- The initial report (lines 210-217). -/
def Report.init : Report :=
  { check_volume := false, check_coordinates := false,
    check_location_sanity := false, check_file := false,
    total_records := 0, errors := [] }

/-- The numeric value of a cell, when it has one. -/
def Cell.toNum : Cell → Option Rat
  | Cell.num q => some q
  | _ => none

/-- Count of non-NaN entries of a column (`df[c].notna().sum()`). -/
def Frame.notnaCount (df : Frame) (c : String) : Nat :=
  (df.rows.filter (fun r => r.get c ≠ Cell.null)).length

/-- Column mean `df[c].mean()`: pandas' arithmetic mean of the non-NaN numeric entries
of a column; `none` stands for NaN (mean of an all-NaN column). -/
def Frame.colMean (df : Frame) (c : String) : Option Rat :=
  let vals := df.rows.filterMap (fun r => (r.get c).toNum)
  if vals.length = 0 then none else some (vals.sum / (vals.length : Rat))

/-- Render a possibly-NaN mean the way the failure diagnostic embeds it. -/
def showMean : Option Rat → String
  | some q => toString q
  | none => "nan"

/-- The location-sanity failure diagnostic (line 260), naming both means. -/
def locationErrMsg (meanLat meanLon : Option Rat) : String :=
  let a := showMean meanLat
  let b := showMean meanLon
  s!"Mean coords ({a}, {b}) outside expected bounds"

/-- A mean lies within closed bounds; NaN compares false (Python chained
comparison with `nan` is false). -/
def meanWithin (bounds : Rat × Rat) : Option Rat → Bool
  | some m => decide (bounds.1 ≤ m ∧ m ≤ bounds.2)
  | none => false

/-- Function `verify_data` (lines 200-266): the three data checks run in sequence,
each recording its flag and, on failure, appending one diagnostic; the
returned success is the conjunction of the three flags (line 264). -/
def verify_data (df : Frame) : Bool × Report :=
  if df.rows.length = 0 then
    (false, { Report.init with errors := ["DataFrame is empty or None"] })
  else
    let n := df.rows.length
    let r1 : Report := { Report.init with total_records := n }
    let r2 : Report :=
      if n > 100 then { r1 with check_volume := true }
      else { r1 with errors := r1.errors ++ [s!"Volume check failed: only {n} records"] }
    let r3 : Report :=
      if "lat" ∈ df.cols ∧ "lon" ∈ df.cols then
        if df.notnaCount "lat" > 0 ∧ df.notnaCount "lon" > 0 then
          { r2 with check_coordinates := true }
        else { r2 with errors := r2.errors ++ ["No valid coordinates found"] }
      else { r2 with errors := r2.errors ++ ["lat/lon columns missing"] }
    let r4 : Report :=
      if "lat" ∈ df.cols ∧ "lon" ∈ df.cols then
        let mean_lat := df.colMean "lat"
        let mean_lon := df.colMean "lon"
        if meanWithin HOUSTON_DALLAS_LAT_BOUNDS mean_lat
            ∧ meanWithin HOUSTON_DALLAS_LON_BOUNDS mean_lon then
          { r3 with check_location_sanity := true }
        else { r3 with errors := r3.errors ++ [locationErrMsg mean_lat mean_lon] }
      else r3
    (r4.check_volume && r4.check_coordinates && r4.check_location_sanity, r4)

/-!
## Output Writer (lines 269-303)
-/

/-- The file-system behaviour `save_output` runs against: whether
`df.to_csv` raises, whether `os.path.exists(csv_path)` holds after the
write, and whether the GeoJSON `gdf.to_file` raises. -/
structure FsEnv where
  csvWriteOk : Bool
  csvExistsAfter : Bool
  geojsonWriteOk : Bool
deriving DecidableEq, Repr

/-- Function `save_output` (lines 269-303): the whole body sits in one
`try/except`, so an exception from the GeoJSON write as well as from the
CSV write lands in the `except` branch and returns `False`; otherwise the
result is the `os.path.exists` test on the CSV path. -/
def save_output (env : FsEnv) (df : Frame) (geojson_given : Bool) : Bool :=
  if ¬ env.csvWriteOk then false
  else if env.csvExistsAfter then
    if geojson_given ∧ "lat" ∈ df.cols ∧ "lon" ∈ df.cols then
      if env.geojsonWriteOk then true else false
    else true
  else false

/-!
## Aggregator / Deduplicator (lines 381-389)
-/

/-- The deduplication key: `subset=['lat', 'lon']` of line 387. -/
def dedupKey (r : Row) : Cell × Cell := (r.get "lat", r.get "lon")

/-- Worker for `drop_duplicates(keep='first')`: scan left to right,
keeping a row iff its key has not been seen yet. -/
def dropDupGo (seen : List (Cell × Cell)) : List Row → List Row
  | [] => []
  | r :: rs =>
      if dedupKey r ∈ seen then dropDupGo seen rs
      else r :: dropDupGo (dedupKey r :: seen) rs

/-- Model of `final_df.drop_duplicates(subset=['lat', 'lon'], keep='first')`
(line 387). -/
def drop_duplicates (rows : List Row) : List Row := dropDupGo [] rows

/-- Ordered union of column lists (pandas `concat` keeps the columns of
the first frame and appends new ones in order of first appearance). -/
def colUnion (a b : List String) : List String :=
  a ++ b.filter (fun c => c ∉ a)

/-- Model of `pd.concat(all_data, ignore_index=True)` (line 382). -/
def concatFrames (fs : List Frame) : Frame :=
  { cols := fs.foldl (fun acc f => colUnion acc f.cols) [],
    rows := (fs.map Frame.rows).flatten }

/-!
## Fallback Controller / main orchestration (lines 310-445)
-/

/-- Model of `location.split(",")[0]` (lines 339, 362). -/
def cityOf (location : String) : String := (location.splitOn ",").headD location

/-- The per-region body of the fetch loops (lines 331-343 and 357-366):
fetch, convert to centroids, clean; the region contributes a frame iff
every stage returns a non-`None`, non-empty result. -/
def processRegion (client : Mode → String → Except String Frame)
    (mode : Mode) (location : String) : Option Frame :=
  match fetch_infrastructure_data client mode location with
  | none => none
  | some gdf =>
    match convert_to_centroids gdf with
    | none => none
    | some g2 =>
      match clean_and_filter g2 (cityOf location) with
      | none => none
      | some g3 => if g3.rows.length > 0 then some g3 else none

/-- One whole pass over the configured regions under one temporal mode:
the `all_data` list the loop accumulates. -/
def processPass (client : Mode → String → Except String Frame)
    (mode : Mode) (locations : List String) : List Frame :=
  locations.filterMap (processRegion client mode)

/-- Quantity `total_historical` (line 346): the summed yield of a pass. -/
def totalYield (fs : List Frame) : Nat := (fs.map (fun f => f.rows.length)).sum

/-- The observable milestones of lines 397-417, in program order:
`verify_data` runs, then `save_output`, then the overall success is
computed from both. -/
inductive Step where
  | verified (ok : Bool)
  | saved (ok : Bool)
  | overallComputed (ok : Bool)
deriving DecidableEq, Repr

/-- The tail of `main` (lines 397-417): verify the final dataframe, then
unconditionally save it (CSV plus GeoJSON path), fold the save result
into the report as `check_file` with its diagnostic, and compute
`overall_success = success and file_saved`.  The returned trace records
the order these happen in. -/
structure FinalizeResult where
  success : Bool
  report : Report
  file_saved : Bool
  overall_success : Bool
  trace : List Step
deriving DecidableEq, Repr

def finalize (env : FsEnv) (final_df : Frame) : FinalizeResult :=
  let vr := verify_data final_df
  let success := vr.1
  let rep0 := vr.2
  let file_saved := save_output env final_df true
  let report : Report :=
    { rep0 with
      check_file := file_saved
      errors := rep0.errors ++ (if file_saved then [] else ["File creation failed"]) }
  { success := success, report := report, file_saved := file_saved,
    overall_success := success && file_saved,
    trace := [Step.verified success, Step.saved file_saved,
      Step.overallComputed (success && file_saved)] }

/-- Everything observable about one run of `main` (lines 310-445). -/
structure MainResult where
  use_historical : Bool
  all_data : List Frame
  final_df : Option Frame
  saved_df : Option Frame
  success : Bool
  report : Option Report
  file_saved : Bool
  overall_success : Bool
  trace : List Step
deriving DecidableEq, Repr

namespace POI

/-- Function `main` (lines 310-445): a HISTORICAL pass over `LOCATIONS`; if its
total yield is below 50 the collected data is reset and a CURRENT pass
replaces it; with no data at all the run fails early (lines 372-379);
otherwise the frames are concatenated, deduplicated on `(lat, lon)`,
verified, saved, and the overall success is the conjunction of the
verification success and the save result (line 417). -/
def mainRun (env : FsEnv) (use_historical : Bool) (all_data : List Frame) : MainResult :=
  if all_data.isEmpty then
    { use_historical := use_historical, all_data := all_data, final_df := none,
      saved_df := none, success := false, report := none, file_saved := false,
      overall_success := false, trace := [] }
  else
    let merged := concatFrames all_data
    let final_df : Frame := { merged with rows := drop_duplicates merged.rows }
    let fr := finalize env final_df
    { use_historical := use_historical, all_data := all_data,
      final_df := some final_df, saved_df := some final_df,
      success := fr.success, report := some fr.report,
      file_saved := fr.file_saved, overall_success := fr.overall_success,
      trace := fr.trace }

def main (client : Mode → String → Except String Frame) (env : FsEnv) : MainResult :=
  let hist := processPass client Mode.historical LOCATIONS
  let total_historical := totalYield hist
  let pick :=
    if total_historical < 50 then (false, processPass client Mode.current LOCATIONS)
    else (true, hist)
  mainRun env pick.1 pick.2

end POI

/-!
## Helper lemmas
-/

theorem Row.get_set (r : Row) (c c2 : String) (v : Cell) :
    (r.set c v).get c2 = if c = c2 then v else r.get c2 := by
  unfold Row.set
  by_cases h : c = c2
  · simp [Row.get, h]
  · simp only [Row.get, h, if_neg h]
    induction r with
    | nil => simp [Row.get]
    | cons p rest ih =>
        by_cases hp : p.1 = c
        · simp [List.filter, hp, Row.get] at ih ⊢
          rw [← ih]
          cases p with
          | mk a b =>
              simp at hp
              subst hp
              simp [Row.get, h]
        · cases p with
          | mk a b =>
              simp at hp
              simp [List.filter, hp, Row.get] at ih ⊢
              by_cases hac : a = c2
              · simp [hac]
              · simp [hac, ih]

/-- Reading a projected row: a column in the projection list reads the
original row's value there. -/
theorem Row.get_project (cols : List String) (r : Row) (c : String)
    (h : c ∈ cols) : (Row.project cols r).get c = r.get c := by
  induction cols with
  | nil => cases h
  | cons a rest ih =>
      simp only [Row.project, List.map, Row.get]
      by_cases hac : a = c
      · simp [hac]
      · have : c ∈ rest := by
          cases h with
          | head => exact absurd rfl hac
          | tail _ hm => exact hm
        simp only [if_neg hac]
        exact ih this

/-- A dataset of `n` records, each a minimal row; used to exercise the
volume check at the 100/101 boundary. -/
def volFrame (n : Nat) : Frame :=
  { cols := ["lat", "lon"],
    rows := (List.range n).map (fun i =>
      [("lat", Cell.num (2976/100 : Rat)), ("lon", Cell.num (-9537/100 : Rat)),
        ("name", Cell.str (toString i))]) }

/-- The volume flag of `verify_data` is exactly the `> 100` test. -/
theorem check_volume_eq (df : Frame) :
    (verify_data df).2.check_volume = decide (df.rows.length > 100) := by
  unfold verify_data
  by_cases h0 : df.rows.length = 0
  · simp [h0, Report.init]
  · simp only [if_neg h0]
    by_cases hv : df.rows.length > 100
    · simp only [if_pos hv]
      split_ifs <;> simp [hv, Report.init]
    · simp only [if_neg hv]
      split_ifs <;> simp [hv, Report.init]

/-- C8: the Verifier's volume check passes iff the record count is
strictly greater than 100; a dataset of exactly 100 records fails it and
one of 101 records passes. -/
theorem volume_check_iff :
    (∀ df : Frame, (verify_data df).2.check_volume = decide (df.rows.length > 100))
    ∧ (verify_data (volFrame 100)).2.check_volume = false
    ∧ (verify_data (volFrame 101)).2.check_volume = true := by
  refine ⟨check_volume_eq, ?_, ?_⟩
  · rw [check_volume_eq]
    simp [volFrame]
  · rw [check_volume_eq]
    simp [volFrame]

/-- C1: the fallback controller retries with a CURRENT pass iff the total
HISTORICAL yield is strictly below 50; the data handed on (and hence fed
to the aggregator) is exactly the final mode's per-region results — the
HISTORICAL results are discarded on retry, never unioned. -/
theorem fallback_retry_iff (client : Mode → String → Except String Frame)
    (env : FsEnv) :
    ((POI.main client env).use_historical = false ↔
      totalYield (processPass client Mode.historical LOCATIONS) < 50)
    ∧ (POI.main client env).all_data =
        (if totalYield (processPass client Mode.historical LOCATIONS) < 50
          then processPass client Mode.current LOCATIONS
          else processPass client Mode.historical LOCATIONS)
    ∧ (POI.main client env).final_df =
        (if (POI.main client env).all_data.isEmpty then none
          else some { cols := (concatFrames (POI.main client env).all_data).cols
                      rows := drop_duplicates (concatFrames (POI.main client env).all_data).rows }) := by
  unfold POI.main POI.mainRun
  by_cases h : totalYield (processPass client Mode.historical LOCATIONS) < 50
  · simp only [if_pos h]
    split <;> simp_all
  · simp only [if_neg h]
    split <;> simp_all

/-- C2: an exception raised by the external client during one region's
fetch is caught at the per-region boundary (`fetch_infrastructure_data`
returns `None`); the pass over the regions is exactly the pass over the
other regions, so every remaining region's cleaned frame still reaches
`all_data`. -/
theorem region_failure_isolated (client : Mode → String → Except String Frame)
    (mode : Mode) (l1 l2 : List String) (a e : String)
    (h : client mode a = Except.error e) :
    fetch_infrastructure_data client mode a = none
    ∧ processPass client mode (l1 ++ a :: l2) =
        processPass client mode l1 ++ processPass client mode l2
    ∧ (∀ g, g ∈ processPass client mode l2 →
        g ∈ processPass client mode (l1 ++ a :: l2)) := by
  have hf : fetch_infrastructure_data client mode a = none := by
    simp [fetch_infrastructure_data, h]
  have hp : processPass client mode (l1 ++ a :: l2) =
      processPass client mode l1 ++ processPass client mode l2 := by
    unfold processPass
    rw [List.filterMap_append, List.filterMap_cons]
    have : processRegion client mode a = none := by
      simp [processRegion, hf]
    simp [this]
  refine ⟨hf, hp, fun g hg => ?_⟩
  rw [hp]
  exact List.mem_append_right _ hg

/-- A feature with a point geometry and a `power` tag, for concrete runs. -/
def demoFeature (i : Nat) : Row :=
  [("geometry", Cell.geom (CellGeometry.nonempty (-95) 29)),
    ("power", Cell.str "plant"), ("name", Cell.str (toString i))]

/-- A client frame of `n` such features. -/
def demoFrame (n : Nat) : Frame :=
  { cols := ["power", "name", "geometry"], rows := (List.range n).map demoFeature }

/-- A client that raises on Houston and answers Dallas with data. -/
def errClient : Mode → String → Except String Frame :=
  fun _ loc =>
    if loc = "Houston, Texas, USA" then Except.error "network error"
    else Except.ok (demoFrame 60)

theorem region_failure_isolated_witness :
    fetch_infrastructure_data errClient Mode.historical "Houston, Texas, USA" = none
    ∧ processPass errClient Mode.historical
        ([] ++ "Houston, Texas, USA" :: ["Dallas, Texas, USA"]) =
        processPass errClient Mode.historical []
          ++ processPass errClient Mode.historical ["Dallas, Texas, USA"]
    ∧ (∀ g, g ∈ processPass errClient Mode.historical ["Dallas, Texas, USA"] →
        g ∈ processPass errClient Mode.historical
          ([] ++ "Houston, Texas, USA" :: ["Dallas, Texas, USA"])) :=
  region_failure_isolated errClient Mode.historical [] ["Dallas, Texas, USA"]
    "Houston, Texas, USA" "network error" rfl

/-- The set of keys `dropDupGo` has seen after scanning a list. -/
def dedupSeen (seen : List (Cell × Cell)) : List Row → List (Cell × Cell)
  | [] => seen
  | r :: rs =>
      if dedupKey r ∈ seen then dedupSeen seen rs
      else dedupSeen (dedupKey r :: seen) rs

theorem dropDupGo_append (seen : List (Cell × Cell)) (xs ys : List Row) :
    dropDupGo seen (xs ++ ys) =
      dropDupGo seen xs ++ dropDupGo (dedupSeen seen xs) ys := by
  induction xs generalizing seen with
  | nil => simp [dropDupGo, dedupSeen]
  | cons x xs ih =>
      by_cases h : dedupKey x ∈ seen
      · simp [dropDupGo, dedupSeen, h, ih]
      · simp [dropDupGo, dedupSeen, h, ih]

theorem mem_dedupSeen_mono (k : Cell × Cell) (seen : List (Cell × Cell))
    (xs : List Row) (h : k ∈ seen) : k ∈ dedupSeen seen xs := by
  induction xs generalizing seen with
  | nil => simpa [dedupSeen] using h
  | cons x xs ih =>
      by_cases hx : dedupKey x ∈ seen
      · simpa [dedupSeen, hx] using ih seen h
      · simp only [dedupSeen, if_neg hx]
        exact ih _ (List.mem_cons_of_mem _ h)

theorem key_mem_dedupSeen (seen : List (Cell × Cell)) (xs : List Row)
    (r : Row) (h : r ∈ xs) : dedupKey r ∈ dedupSeen seen xs := by
  induction xs generalizing seen with
  | nil => cases h
  | cons x xs ih =>
      by_cases hx : dedupKey x ∈ seen
      · simp only [dedupSeen, if_pos hx]
        cases h with
        | head => exact mem_dedupSeen_mono _ _ _ hx
        | tail _ hm => exact ih seen hm
      · simp only [dedupSeen, if_neg hx]
        cases h with
        | head => exact mem_dedupSeen_mono _ _ _ (List.mem_cons_self _ _)
        | tail _ hm => exact ih _ hm

theorem dropDupGo_eq_nil (seen : List (Cell × Cell)) (ys : List Row)
    (h : ∀ r ∈ ys, dedupKey r ∈ seen) : dropDupGo seen ys = [] := by
  induction ys with
  | nil => rfl
  | cons y ys ih =>
      have hy := h y (List.mem_cons_self _ _)
      simp only [dropDupGo, if_pos hy]
      exact ih fun r hr => h r (List.mem_cons_of_mem _ hr)

theorem mem_dropDupGo_first (seen : List (Cell × Cell)) (xs : List Row)
    (r : Row) (h : r ∈ dropDupGo seen xs) :
    dedupKey r ∉ seen ∧
      ∃ pre post, xs = pre ++ r :: post ∧ ∀ y ∈ pre, dedupKey y ≠ dedupKey r := by
  induction xs generalizing seen with
  | nil => cases h
  | cons x xs ih =>
      by_cases hx : dedupKey x ∈ seen
      · rw [dropDupGo, if_pos hx] at h
        obtain ⟨hns, pre, post, heq, hpre⟩ := ih seen h
        refine ⟨hns, x :: pre, post, by rw [heq]; rfl, ?_⟩
        intro y hy
        cases hy with
        | head => exact fun hk => hns (hk ▸ hx)
        | tail _ hm => exact hpre y hm
      · rw [dropDupGo, if_neg hx] at h
        cases h with
        | head => exact ⟨hx, [], xs, rfl, by simp⟩
        | tail _ hm =>
            obtain ⟨hns, pre, post, heq, hpre⟩ := ih _ hm
            have hnsx : dedupKey r ≠ dedupKey x := by
              intro hk
              exact hns (by rw [hk]; exact List.mem_cons_self _ _)
            refine ⟨fun hk => hns (List.mem_cons_of_mem _ hk),
              x :: pre, post, by rw [heq]; rfl, ?_⟩
            intro y hy
            cases hy with
            | head => exact fun hk => hnsx hk.symm
            | tail _ hm2 => exact hpre y hm2

theorem mem_dropDupGo_exists (seen : List (Cell × Cell)) (xs : List Row)
    (r : Row) (hr : r ∈ xs) (hns : dedupKey r ∉ seen) :
    ∃ y ∈ dropDupGo seen xs, dedupKey y = dedupKey r := by
  induction xs generalizing seen with
  | nil => cases hr
  | cons x xs ih =>
      by_cases hx : dedupKey x ∈ seen
      · rw [dropDupGo, if_pos hx]
        cases hr with
        | head => exact absurd hx hns
        | tail _ hm => exact ih seen hm hns
      · rw [dropDupGo, if_neg hx]
        by_cases hk : dedupKey r = dedupKey x
        · exact ⟨x, List.mem_cons_self _ _, hk.symm⟩
        · cases hr with
          | head => exact absurd rfl hk
          | tail _ hm =>
              obtain ⟨y, hy, hky⟩ := ih (dedupKey x :: seen) hm
                (by simp [List.mem_cons, hk, hns])
              exact ⟨y, List.mem_cons_of_mem _ hy, hky⟩

/-- C3: `drop_duplicates` is idempotent under doubled input, and among
records with exactly equal `(lat, lon)` keys it keeps the earliest
occurrence: every retained record is the first of its key in the input,
and every input record's key has a retained representative. -/
theorem drop_duplicates_doubled_keep_first :
    (∀ X : List Row, drop_duplicates (X ++ X) = drop_duplicates X)
    ∧ (∀ (X : List Row) (r : Row), r ∈ drop_duplicates X →
        ∃ pre post, X = pre ++ r :: post ∧ ∀ y ∈ pre, dedupKey y ≠ dedupKey r)
    ∧ (∀ (X : List Row) (r : Row), r ∈ X →
        ∃ y ∈ drop_duplicates X, dedupKey y = dedupKey r) := by
  refine ⟨fun X => ?_, fun X r h => (mem_dropDupGo_first [] X r h).2,
    fun X r h => mem_dropDupGo_exists [] X r h (by simp)⟩
  unfold drop_duplicates
  rw [dropDupGo_append]
  have : dropDupGo (dedupSeen [] X) X = [] :=
    dropDupGo_eq_nil _ _ (fun r hr => key_mem_dedupSeen [] X r hr)
  simp [this]

/-- Two rows sharing the coordinate key, a third distinct; used to run
the deduplicator at a concrete input. -/
def dupRowA : Row := [("lat", Cell.num 29), ("lon", Cell.num (-95)), ("name", Cell.str "a")]

def dupRowB : Row := [("lat", Cell.num 29), ("lon", Cell.num (-95)), ("name", Cell.str "b")]

def dupRowC : Row := [("lat", Cell.num 30), ("lon", Cell.num (-96)), ("name", Cell.str "c")]

theorem drop_duplicates_doubled_keep_first_witness :
    drop_duplicates ([dupRowA, dupRowB, dupRowC] ++ [dupRowA, dupRowB, dupRowC]) =
      drop_duplicates [dupRowA, dupRowB, dupRowC]
    ∧ (∃ pre post, [dupRowA, dupRowB, dupRowC] = pre ++ dupRowA :: post
        ∧ ∀ y ∈ pre, dedupKey y ≠ dedupKey dupRowA)
    ∧ ∃ y ∈ drop_duplicates [dupRowA, dupRowB, dupRowC],
        dedupKey y = dedupKey dupRowB :=
  ⟨drop_duplicates_doubled_keep_first.1 [dupRowA, dupRowB, dupRowC],
    drop_duplicates_doubled_keep_first.2.1 [dupRowA, dupRowB, dupRowC] dupRowA (by decide),
    drop_duplicates_doubled_keep_first.2.2 [dupRowA, dupRowB, dupRowC] dupRowB (by decide)⟩

/-- A one-row frame with lat/lon columns, for concrete writer runs. -/
def latlonFrame : Frame :=
  { cols := ["lat", "lon"]
    rows := [[("lat", Cell.num 29), ("lon", Cell.num (-95))]] }

/-- C6 counterexample: with the CSV written and confirmed to exist on the
file system, an exception from the GeoJSON write alone flips the returned
signal from success to failure — the GeoJSON write is not best-effort. -/
theorem save_output_geojson_failure_flips_signal :
    save_output ⟨true, true, true⟩ latlonFrame true = true
    ∧ save_output ⟨true, true, false⟩ latlonFrame true = false
    ∧ (FsEnv.mk true true false).csvExistsAfter = true := by
  refine ⟨?_, ?_, rfl⟩ <;> rfl

/-- C6 amended: `save_output` succeeds iff the CSV write does not raise,
the CSV file exists afterwards, and — when a GeoJSON path is given and
the frame has lat/lon columns, so the GeoJSON write is attempted — that
write does not raise either. -/
theorem save_output_success_iff (env : FsEnv) (df : Frame) (g : Bool) :
    save_output env df g = true ↔
      (env.csvWriteOk = true ∧ env.csvExistsAfter = true ∧
        ((g = true ∧ "lat" ∈ df.cols ∧ "lon" ∈ df.cols) → env.geojsonWriteOk = true)) := by
  unfold save_output
  split_ifs with h1 h2 h3 h4 <;> simp_all

/-- A single feature whose geometry is empty/degenerate. -/
def emptyGeomFrame : Frame :=
  { cols := ["geometry"]
    rows := [[("geometry", Cell.geom CellGeometry.empty)]] }

/-- C7 counterexample: a feature whose geometry cannot be reduced to a
coordinate is NOT dropped by `convert_to_centroids`: it comes out as a
record with NaN (null) latitude and longitude. -/
theorem convert_to_centroids_keeps_degenerate :
    convert_to_centroids emptyGeomFrame =
      some { cols := ["geometry", "lon", "lat"]
             rows := [[("lat", Cell.null), ("lon", Cell.null),
               ("geometry", Cell.geom CellGeometry.empty)]] } := by
  rfl

/-- C7 amended: `convert_to_centroids` drops nothing — the output has one
record per input feature; a feature with a reducible (non-empty) geometry
gets that centroid as finite `lat`/`lon`, and a feature whose geometry
cannot be reduced is represented with null (NaN) coordinates instead of
being dropped. -/
theorem convert_to_centroids_amended (gdf : Frame) (h : gdf.rows ≠ []) :
    convert_to_centroids gdf =
      some { cols := gdf.cols ++ ["lon", "lat"], rows := gdf.rows.map centroidRow }
    ∧ (gdf.rows.map centroidRow).length = gdf.rows.length
    ∧ (∀ r ∈ gdf.rows, ∀ cx cy,
        r.get "geometry" = Cell.geom (CellGeometry.nonempty cx cy) →
        (centroidRow r).get "lat" = Cell.num cy ∧ (centroidRow r).get "lon" = Cell.num cx)
    ∧ (∀ r ∈ gdf.rows, cellCentroid (r.get "geometry") = none →
        (centroidRow r).get "lat" = Cell.null ∧ (centroidRow r).get "lon" = Cell.null) := by
  refine ⟨?_, List.length_map _ _, ?_, ?_⟩
  · unfold convert_to_centroids
    rw [if_neg (by simpa [List.length_eq_zero] using h)]
  · intro r _ cx cy hg
    have : cellCentroid (r.get "geometry") = some (cx, cy) := by
      simp [cellCentroid, hg]
    simp [centroidRow, this, Row.get_set]
  · intro r _ hc
    simp [centroidRow, hc, Row.get_set]

/-- A single feature with a point geometry, for the witness. -/
def pointGeomFrame : Frame :=
  { cols := ["geometry"]
    rows := [[("geometry", Cell.geom (CellGeometry.nonempty (-95) 29))]] }

theorem convert_to_centroids_amended_witness :
    convert_to_centroids pointGeomFrame =
      some { cols := pointGeomFrame.cols ++ ["lon", "lat"]
             rows := pointGeomFrame.rows.map centroidRow }
    ∧ (pointGeomFrame.rows.map centroidRow).length = pointGeomFrame.rows.length
    ∧ (∀ r ∈ pointGeomFrame.rows, ∀ cx cy,
        r.get "geometry" = Cell.geom (CellGeometry.nonempty cx cy) →
        (centroidRow r).get "lat" = Cell.num cy ∧ (centroidRow r).get "lon" = Cell.num cx)
    ∧ (∀ r ∈ pointGeomFrame.rows, cellCentroid (r.get "geometry") = none →
        (centroidRow r).get "lat" = Cell.null ∧ (centroidRow r).get "lon" = Cell.null) :=
  convert_to_centroids_amended pointGeomFrame (by decide)

/-- The columns of the cleaner's working frame after the `city_source`
stamp and `reset_index`. -/
def cleanCols2 (gdf : Frame) : List String :=
  "element_type" :: "osmid" :: (gdf.cols ++ ["city_source"])

/-- List `existing_tag_cols` (line 178) of the cleaner's working frame. -/
def cleanExisting (gdf : Frame) : List String :=
  tagColumns.filter (fun c => c ∈ cleanCols2 gdf)

/-- The cleaner's rows after the (conditional) category-tag mask. -/
def cleanMaskRows (gdf : Frame) (city : String) : List Row :=
  let rows2 := gdf.rows.map (fun r => r.set "city_source" (Cell.str city))
  if (cleanExisting gdf).isEmpty then rows2
  else rows2.filter (fun r => (cleanExisting gdf).any (fun c => r.get c ≠ Cell.null))

/-- List `available_cols` (lines 186-192) of the cleaner's working frame. -/
def cleanAvail (gdf : Frame) : List String :=
  let available0 := KEEP_COLUMNS.filter (fun c => c ∈ cleanCols2 gdf)
  let available1 := if "osmid" ∈ cleanCols2 gdf then "osmid" :: available0 else available0
  if "element_type" ∈ cleanCols2 gdf then "element_type" :: available1 else available1

/-- Function `clean_and_filter` on a non-empty frame, written through the stage
helpers. -/
theorem clean_and_filter_eq (gdf : Frame) (city : String)
    (h0 : ¬ gdf.rows.length = 0) :
    clean_and_filter gdf city =
      some { cols := cleanAvail gdf
             rows := (cleanMaskRows gdf city).map (Row.project (cleanAvail gdf)) } := by
  unfold clean_and_filter cleanAvail cleanMaskRows cleanExisting cleanCols2 Frame.resetIndex
  rw [if_neg h0]

/-- The index columns are always present, so `available_cols` is the two
index columns followed by the present `KEEP_COLUMNS`. -/
theorem cleanAvail_cons (gdf : Frame) :
    cleanAvail gdf =
      "element_type" :: "osmid" :: KEEP_COLUMNS.filter (fun c => c ∈ cleanCols2 gdf) := by
  unfold cleanAvail
  rw [if_pos (by simp [cleanCols2]), if_pos (by simp [cleanCols2])]

/-- A post-normalisation frame none of whose columns is one of the five
category columns (the external service returned features carrying none of
the queried keys): a legal Record Cleaner input. -/
def noTagFrame : Frame :=
  { cols := ["geometry", "lon", "lat"]
    rows := [[("element_type", Cell.str "node"), ("osmid", Cell.num 7),
      ("geometry", Cell.geom (CellGeometry.nonempty (-95) 29)),
      ("lon", Cell.num (-95)), ("lat", Cell.num 29)]] }

/-- What `clean_and_filter` makes of it: the record survives. -/
def noTagCleaned : Frame :=
  { cols := ["element_type", "osmid", "lat", "lon", "city_source"]
    rows := [[("element_type", Cell.str "node"), ("osmid", Cell.num 7),
      ("lat", Cell.num 29), ("lon", Cell.num (-95)),
      ("city_source", Cell.str "Houston")]] }

/-- C4 counterexample: when none of the five category columns is present
in the frame, the `if existing_tag_cols:` guard (line 180) skips the
filter entirely, so a record whose five category fields are all absent is
retained — with all of them null — instead of being dropped. -/
theorem clean_and_filter_keeps_all_null_record :
    clean_and_filter noTagFrame "Houston" = some noTagCleaned
    ∧ noTagCleaned.rows.length = 1
    ∧ (noTagCleaned.rows.all fun r =>
        tagColumns.all fun c => decide (r.get c = Cell.null)) = true := by
  refine ⟨rfl, rfl, rfl⟩

/-- C4 amended: the Record Cleaner's invariant holds exactly when at
least one of the five category columns is present in the input frame: in
that case every output record has a non-null value in one of the five;
when none of them is present, no record is dropped at all. -/
theorem clean_and_filter_tag_invariant (gdf : Frame) (city : String) :
    ((∃ c ∈ tagColumns, c ∈ gdf.cols) →
      ∀ g, clean_and_filter gdf city = some g →
        ∀ r ∈ g.rows, ∃ c ∈ tagColumns, r.get c ≠ Cell.null)
    ∧ ((¬ ∃ c ∈ tagColumns, c ∈ gdf.cols) →
      ∀ g, clean_and_filter gdf city = some g →
        g.rows.length = gdf.rows.length) := by
  constructor
  · rintro ⟨c0, hc0t, hc0f⟩ g hg r hr
    by_cases h0 : gdf.rows.length = 0
    · rw [clean_and_filter, if_pos h0] at hg
      cases hg
    rw [clean_and_filter_eq gdf city h0] at hg
    obtain rfl : _ = g := Option.some.inj hg
    simp only [List.mem_map] at hr
    obtain ⟨r0, hr0, rfl⟩ := hr
    have hexno : (cleanExisting gdf).isEmpty = false := by
      rw [List.isEmpty_eq_false_iff_exists_mem]
      exact ⟨c0, List.mem_filter.2 ⟨hc0t, by simp [cleanCols2, hc0f]⟩⟩
    rw [cleanMaskRows, hexno] at hr0
    simp only [Bool.false_eq_true, if_false] at hr0
    have hmask := (List.mem_filter.1 hr0).2
    rw [List.any_eq_true] at hmask
    obtain ⟨c, hcmem, hcval⟩ := hmask
    have hcfilter := List.mem_filter.1 hcmem
    have hct : c ∈ tagColumns := hcfilter.1
    have hccols2 : c ∈ cleanCols2 gdf := by simpa using hcfilter.2
    have hckeep : c ∈ KEEP_COLUMNS := by
      fin_cases hct <;> decide
    have hcavail : c ∈ cleanAvail gdf := by
      rw [cleanAvail_cons]
      exact List.mem_cons_of_mem _ (List.mem_cons_of_mem _
        (List.mem_filter.2 ⟨hckeep, by simpa using hccols2⟩))
    refine ⟨c, hct, ?_⟩
    rw [Row.get_project _ _ _ hcavail]
    simpa using hcval
  · intro hno g hg
    by_cases h0 : gdf.rows.length = 0
    · rw [clean_and_filter, if_pos h0] at hg
      cases hg
    rw [clean_and_filter_eq gdf city h0] at hg
    obtain rfl : _ = g := Option.some.inj hg
    have hex : (cleanExisting gdf).isEmpty = true := by
      rw [List.isEmpty_iff, cleanExisting, List.filter_eq_nil_iff]
      intro c hct
      have hnotf : c ∉ gdf.cols := fun hmem => hno ⟨c, hct, hmem⟩
      have hne : c ≠ "element_type" ∧ c ≠ "osmid" ∧ c ≠ "city_source" := by
        fin_cases hct <;> exact ⟨by decide, by decide, by decide⟩
      simp [cleanCols2, List.mem_cons, List.mem_append, hne.1, hne.2.1, hne.2.2, hnotf]
    simp only [cleanMaskRows, hex, if_true, List.length_map]

/-- Any frame a region contributes to `all_data` has `lat` and `lon`
columns and at least one row. -/
theorem processRegion_props (client : Mode → String → Except String Frame)
    (mode : Mode) (loc : String) (g : Frame)
    (h : processRegion client mode loc = some g) :
    "lat" ∈ g.cols ∧ "lon" ∈ g.cols ∧ g.rows ≠ [] := by
  unfold processRegion at h
  cases hfetch : fetch_infrastructure_data client mode loc with
  | none => simp [hfetch] at h
  | some gdf =>
      simp only [hfetch] at h
      have hnz : gdf.rows.length ≠ 0 := by
        unfold fetch_infrastructure_data at hfetch
        cases hc : client mode loc with
        | error e => simp [hc] at hfetch
        | ok g0 =>
            simp [hc] at hfetch
            obtain ⟨hne, rfl⟩ := hfetch
            simpa [List.length_eq_zero] using hne
      cases hconv : convert_to_centroids gdf with
      | none => simp [hconv] at h
      | some g2 =>
          simp only [hconv] at h
          have hg2 : g2 = { cols := gdf.cols ++ ["lon", "lat"]
                            rows := gdf.rows.map centroidRow } := by
            unfold convert_to_centroids at hconv
            rw [if_neg hnz] at hconv
            exact (Option.some.inj hconv).symm
          have hg2nz : ¬ g2.rows.length = 0 := by
            rw [hg2]
            simpa using hnz
          cases hclean : clean_and_filter g2 (cityOf loc) with
          | none => simp [hclean] at h
          | some g3 =>
              simp only [hclean] at h
              by_cases hlen : g3.rows.length > 0
              · rw [if_pos hlen] at h
                obtain rfl : g3 = g := Option.some.inj h
                rw [clean_and_filter_eq g2 (cityOf loc) hg2nz] at hclean
                obtain hg3 := (Option.some.inj hclean)
                have hlatc : ("lat" : String) ∈ cleanAvail g2 := by
                  rw [cleanAvail_cons]
                  refine List.mem_cons_of_mem _ (List.mem_cons_of_mem _
                    (List.mem_filter.2 ⟨by decide, ?_⟩))
                  simp [cleanCols2, hg2]
                have hlonc : ("lon" : String) ∈ cleanAvail g2 := by
                  rw [cleanAvail_cons]
                  refine List.mem_cons_of_mem _ (List.mem_cons_of_mem _
                    (List.mem_filter.2 ⟨by decide, ?_⟩))
                  simp [cleanCols2, hg2]
                refine ⟨?_, ?_, ?_⟩
                · rw [← hg3]
                  exact hlatc
                · rw [← hg3]
                  exact hlonc
                · intro hnil
                  rw [hnil] at hlen
                  cases hlen
              · simp [if_neg hlen] at h

theorem mem_colUnion_left (c : String) (a b : List String) (h : c ∈ a) :
    c ∈ colUnion a b := List.mem_append_left _ h

theorem mem_colUnion_right (c : String) (a b : List String) (h : c ∈ b) :
    c ∈ colUnion a b := by
  by_cases ha : c ∈ a
  · exact List.mem_append_left _ ha
  · exact List.mem_append_right _ (List.mem_filter.2 ⟨h, by simpa using ha⟩)

theorem mem_foldl_colUnion (c : String) (fs : List Frame) (acc : List String)
    (h : c ∈ acc ∨ ∃ f ∈ fs, c ∈ f.cols) :
    c ∈ fs.foldl (fun a f => colUnion a f.cols) acc := by
  induction fs generalizing acc with
  | nil =>
      rcases h with h | ⟨f, hf, _⟩
      · simpa using h
      · cases hf
  | cons f fs ih =>
      simp only [List.foldl_cons]
      rcases h with h | ⟨f2, hf2, hc2⟩
      · exact ih _ (Or.inl (mem_colUnion_left _ _ _ h))
      · cases hf2 with
        | head => exact ih _ (Or.inl (mem_colUnion_right _ _ _ hc2))
        | tail _ hm => exact ih _ (Or.inr ⟨f2, hm, hc2⟩)

/-- A column of any member frame is a column of the concatenation. -/
theorem mem_concatFrames_cols (c : String) (fs : List Frame) (f : Frame)
    (hf : f ∈ fs) (hc : c ∈ f.cols) : c ∈ (concatFrames fs).cols :=
  mem_foldl_colUnion c fs [] (Or.inr ⟨f, hf, hc⟩)

/-- Deduplication of a non-empty row list is non-empty. -/
theorem drop_duplicates_ne_nil (rows : List Row) (h : rows ≠ []) :
    drop_duplicates rows ≠ [] := by
  cases rows with
  | nil => exact absurd rfl h
  | cons r rs =>
      unfold drop_duplicates dropDupGo
      rw [if_neg (by simp)]
      exact List.cons_ne_nil _ _

/-- What `mainRun` produces once a final dataframe exists: the frame is
the deduplicated concatenation of `all_data`, it is verified, then saved
(unconditionally), and the overall success is the conjunction of the
verification result and the save result, in that trace order. -/
theorem mainRun_some (env : FsEnv) (uh : Bool) (ad : List Frame) (f : Frame)
    (hf : (POI.mainRun env uh ad).final_df = some f) :
    ad ≠ []
    ∧ f = { cols := (concatFrames ad).cols
            rows := drop_duplicates (concatFrames ad).rows }
    ∧ (POI.mainRun env uh ad).report = some
        { (verify_data f).2 with
          check_file := save_output env f true
          errors := (verify_data f).2.errors
            ++ (if save_output env f true then [] else ["File creation failed"]) }
    ∧ (POI.mainRun env uh ad).success = (verify_data f).1
    ∧ (POI.mainRun env uh ad).file_saved = save_output env f true
    ∧ (POI.mainRun env uh ad).overall_success
        = ((verify_data f).1 && save_output env f true)
    ∧ (POI.mainRun env uh ad).saved_df = some f
    ∧ (POI.mainRun env uh ad).trace =
        [Step.verified (verify_data f).1,
          Step.saved (save_output env f true),
          Step.overallComputed ((verify_data f).1 && save_output env f true)] := by
  unfold POI.mainRun at hf ⊢
  by_cases he : ad.isEmpty
  · simp [he] at hf
  · simp only [he, Bool.false_eq_true, if_false] at hf ⊢
    obtain rfl : _ = f := Option.some.inj hf
    refine ⟨by simpa [List.isEmpty_iff] using he, rfl, ?_, ?_, ?_, ?_, ?_, ?_⟩ <;>
      simp [finalize]

/-- Every frame a pass contributes has lat/lon columns and rows. -/
theorem processPass_mem_props (client : Mode → String → Except String Frame)
    (mode : Mode) (locs : List String) (g : Frame)
    (hg : g ∈ processPass client mode locs) :
    "lat" ∈ g.cols ∧ "lon" ∈ g.cols ∧ g.rows ≠ [] := by
  unfold processPass at hg
  obtain ⟨loc, _, hr⟩ := List.mem_filterMap.1 hg
  exact processRegion_props client mode loc g hr

/-- The final dataframe of `main` always has lat/lon columns and is
non-empty. -/
theorem main_final_props (client : Mode → String → Except String Frame)
    (env : FsEnv) (f : Frame)
    (hf : (POI.main client env).final_df = some f) :
    "lat" ∈ f.cols ∧ "lon" ∈ f.cols ∧ f.rows ≠ [] := by
  have hmode : ∃ mode, POI.main client env =
      POI.mainRun env (decide (¬ totalYield (processPass client Mode.historical LOCATIONS) < 50))
        (processPass client mode LOCATIONS) := by
    by_cases h50 : totalYield (processPass client Mode.historical LOCATIONS) < 50
    · exact ⟨Mode.current, by unfold POI.main; simp [h50]⟩
    · exact ⟨Mode.historical, by unfold POI.main; simp [h50]⟩
  obtain ⟨mode, hmain⟩ := hmode
  rw [hmain] at hf
  obtain ⟨hne, hfeq, -⟩ := mainRun_some _ _ _ _ hf
  set ad := processPass client mode LOCATIONS with had
  obtain ⟨g, hgmem⟩ := List.exists_mem_of_ne_nil ad hne
  obtain ⟨hglat, hglon, hgrows⟩ := processPass_mem_props client mode LOCATIONS g hgmem
  refine ⟨?_, ?_, ?_⟩
  · rw [hfeq]
    exact mem_concatFrames_cols _ ad g hgmem hglat
  · rw [hfeq]
    exact mem_concatFrames_cols _ ad g hgmem hglon
  · rw [hfeq]
    apply drop_duplicates_ne_nil
    obtain ⟨r, hr⟩ := List.exists_mem_of_ne_nil g.rows hgrows
    have : r ∈ (concatFrames ad).rows := by
      unfold concatFrames
      simp only [List.mem_flatten]
      exact ⟨g.rows, List.mem_map.2 ⟨g, hgmem, rfl⟩, hr⟩
    exact List.ne_nil_of_mem this

/-- The volume predicate of check 1, as its own function of the frame. -/
def volumeOk (df : Frame) : Bool := decide (df.rows.length > 100)

/-- The coordinate predicate of check 2. -/
def coordinatesOk (df : Frame) : Bool :=
  decide (df.notnaCount "lat" > 0) && decide (df.notnaCount "lon" > 0)

/-- The location-sanity predicate of check 3. -/
def locationOk (df : Frame) : Bool :=
  meanWithin HOUSTON_DALLAS_LAT_BOUNDS (df.colMean "lat")
    && meanWithin HOUSTON_DALLAS_LON_BOUNDS (df.colMean "lon")

/-- The volume-check failure diagnostic (line 230). -/
def volMsg (n : Nat) : String := s!"Volume check failed: only {n} records"

/-- On a non-empty frame with lat/lon columns, `verify_data` evaluates
all three checks independently, each failing check appends exactly its
one diagnostic, and success is the conjunction of the three flags. -/
theorem verify_data_char (df : Frame)
    (hlat : "lat" ∈ df.cols) (hlon : "lon" ∈ df.cols)
    (h0 : df.rows ≠ []) :
    verify_data df =
      (volumeOk df && coordinatesOk df && locationOk df,
        { check_volume := volumeOk df
          check_coordinates := coordinatesOk df
          check_location_sanity := locationOk df
          check_file := false
          total_records := df.rows.length
          errors := (if volumeOk df then [] else [volMsg df.rows.length])
            ++ ((if coordinatesOk df then [] else ["No valid coordinates found"])
            ++ (if locationOk df then [] else
                [locationErrMsg (df.colMean "lat") (df.colMean "lon")])) }) := by
  have h0' : ¬ df.rows.length = 0 := by simpa [List.length_eq_zero] using h0
  have hml : "lat" ∈ df.cols ∧ "lon" ∈ df.cols := ⟨hlat, hlon⟩
  unfold verify_data
  rw [if_neg h0']
  simp only [if_pos hml]
  split_ifs <;> simp_all [volumeOk, coordinatesOk, locationOk, volMsg, Report.init]
  all_goals omega

/-- A one-record dataset whose mean coordinate is Houston's
`(29.76, -95.37)`. -/
def houstonFrame : Frame :=
  { cols := ["lat", "lon"]
    rows := [[("lat", Cell.num (2976/100 : Rat)), ("lon", Cell.num (-9537/100 : Rat))]] }

/-- A one-record dataset whose mean coordinate is New York's
`(40.71, -74.01)`. -/
def nyFrame : Frame :=
  { cols := ["lat", "lon"]
    rows := [[("lat", Cell.num (4071/100 : Rat)), ("lon", Cell.num (-7401/100 : Rat))]] }

theorem houston_colMean_lat : houstonFrame.colMean "lat" = some (2976/100 : Rat) := by
  have hv : houstonFrame.rows.filterMap (fun r => (r.get "lat").toNum)
      = [(2976/100 : Rat)] := rfl
  simp only [Frame.colMean, hv]
  norm_num

theorem houston_colMean_lon : houstonFrame.colMean "lon" = some (-9537/100 : Rat) := by
  have hv : houstonFrame.rows.filterMap (fun r => (r.get "lon").toNum)
      = [(-9537/100 : Rat)] := rfl
  simp only [Frame.colMean, hv]
  norm_num

theorem ny_colMean_lat : nyFrame.colMean "lat" = some (4071/100 : Rat) := by
  have hv : nyFrame.rows.filterMap (fun r => (r.get "lat").toNum)
      = [(4071/100 : Rat)] := rfl
  simp only [Frame.colMean, hv]
  norm_num

theorem ny_colMean_lon : nyFrame.colMean "lon" = some (-7401/100 : Rat) := by
  have hv : nyFrame.rows.filterMap (fun r => (r.get "lon").toNum)
      = [(-7401/100 : Rat)] := rfl
  simp only [Frame.colMean, hv]
  norm_num

theorem houston_locationOk : locationOk houstonFrame = true := by
  simp only [locationOk, meanWithin, houston_colMean_lat, houston_colMean_lon]
  norm_num [HOUSTON_DALLAS_LAT_BOUNDS, HOUSTON_DALLAS_LON_BOUNDS]

theorem ny_locationOk : locationOk nyFrame = false := by
  simp only [locationOk, meanWithin, ny_colMean_lat, ny_colMean_lon]
  norm_num [HOUSTON_DALLAS_LAT_BOUNDS, HOUSTON_DALLAS_LON_BOUNDS]

/-- C9: the location-sanity check passes iff the mean latitude lies in
`[29.0, 33.5]` and the mean longitude in `[-97.5, -94.5]`; the Houston
mean `(29.76, -95.37)` passes, the New York mean `(40.71, -74.01)` fails
and appends the diagnostic naming the out-of-bounds means. -/
theorem location_sanity_iff (df : Frame)
    (hlat : "lat" ∈ df.cols) (hlon : "lon" ∈ df.cols)
    (ml mo : Rat) (hml : df.colMean "lat" = some ml) (hmo : df.colMean "lon" = some mo) :
    ((verify_data df).2.check_location_sanity = true ↔
      (HOUSTON_DALLAS_LAT_BOUNDS.1 ≤ ml ∧ ml ≤ HOUSTON_DALLAS_LAT_BOUNDS.2
        ∧ HOUSTON_DALLAS_LON_BOUNDS.1 ≤ mo ∧ mo ≤ HOUSTON_DALLAS_LON_BOUNDS.2))
    ∧ (verify_data houstonFrame).2.check_location_sanity = true
    ∧ (verify_data nyFrame).2.check_location_sanity = false
    ∧ locationErrMsg (nyFrame.colMean "lat") (nyFrame.colMean "lon")
        ∈ (verify_data nyFrame).2.errors := by
  have h0 : df.rows ≠ [] := by
    intro hnil
    rw [Frame.colMean, hnil] at hml
    simp at hml
  refine ⟨?_, ?_, ?_, ?_⟩
  · rw [verify_data_char df hlat hlon h0]
    show locationOk df = true ↔ _
    simp only [locationOk, meanWithin, hml, hmo, Bool.and_eq_true, decide_eq_true_eq,
      HOUSTON_DALLAS_LAT_BOUNDS, HOUSTON_DALLAS_LON_BOUNDS]
    tauto
  · rw [verify_data_char houstonFrame (by decide) (by decide) (by decide)]
    exact houston_locationOk
  · rw [verify_data_char nyFrame (by decide) (by decide) (by decide)]
    exact ny_locationOk
  · rw [verify_data_char nyFrame (by decide) (by decide) (by decide)]
    show locationErrMsg _ _ ∈
      (if volumeOk nyFrame then [] else [volMsg nyFrame.rows.length])
        ++ ((if coordinatesOk nyFrame then [] else ["No valid coordinates found"])
        ++ (if locationOk nyFrame then [] else
            [locationErrMsg (nyFrame.colMean "lat") (nyFrame.colMean "lon")]))
    have hv : volumeOk nyFrame = false := rfl
    have hc : coordinatesOk nyFrame = true := rfl
    simp [hv, hc, ny_locationOk]

theorem location_sanity_iff_witness :
    ((verify_data houstonFrame).2.check_location_sanity = true ↔
      (HOUSTON_DALLAS_LAT_BOUNDS.1 ≤ (2976/100 : Rat)
        ∧ (2976/100 : Rat) ≤ HOUSTON_DALLAS_LAT_BOUNDS.2
        ∧ HOUSTON_DALLAS_LON_BOUNDS.1 ≤ (-9537/100 : Rat)
        ∧ (-9537/100 : Rat) ≤ HOUSTON_DALLAS_LON_BOUNDS.2))
    ∧ (verify_data houstonFrame).2.check_location_sanity = true
    ∧ (verify_data nyFrame).2.check_location_sanity = false
    ∧ locationErrMsg (nyFrame.colMean "lat") (nyFrame.colMean "lon")
        ∈ (verify_data nyFrame).2.errors :=
  location_sanity_iff houstonFrame (by decide) (by decide)
    (2976/100 : Rat) (-9537/100 : Rat) houston_colMean_lat houston_colMean_lon

/-- Function `main` is `mainRun` applied to the chosen mode flag and data. -/
theorem main_eq_mainRun (client : Mode → String → Except String Frame) (env : FsEnv) :
    POI.main client env = POI.mainRun env
      (if totalYield (processPass client Mode.historical LOCATIONS) < 50 then false else true)
      (if totalYield (processPass client Mode.historical LOCATIONS) < 50
        then processPass client Mode.current LOCATIONS
        else processPass client Mode.historical LOCATIONS) := by
  unfold POI.main
  by_cases h : totalYield (processPass client Mode.historical LOCATIONS) < 50 <;> simp [h]

/-- C5: whenever a final dataset exists, the run's overall success is the
conjunction of the four named checks; each check's flag is its own
predicate of the dataset (and of the writer environment for persistence),
so no check's failure affects another's evaluation; and the error list is
exactly one diagnostic per failing check. -/
theorem verifier_and_of_four (client : Mode → String → Except String Frame)
    (env : FsEnv) (f : Frame)
    (hf : (POI.main client env).final_df = some f) :
    ∃ R, (POI.main client env).report = some R
      ∧ (POI.main client env).overall_success
          = (R.check_volume && R.check_coordinates && R.check_location_sanity && R.check_file)
      ∧ R.check_volume = volumeOk f
      ∧ R.check_coordinates = coordinatesOk f
      ∧ R.check_location_sanity = locationOk f
      ∧ R.check_file = save_output env f true
      ∧ R.errors = ((if volumeOk f then [] else [volMsg f.rows.length])
          ++ ((if coordinatesOk f then [] else ["No valid coordinates found"])
          ++ (if locationOk f then [] else
              [locationErrMsg (f.colMean "lat") (f.colMean "lon")])))
          ++ (if save_output env f true then [] else ["File creation failed"])
      ∧ R.errors.length
          = (((if R.check_volume then 0 else 1) + (if R.check_coordinates then 0 else 1))
            + (if R.check_location_sanity then 0 else 1)) + (if R.check_file then 0 else 1) := by
  obtain ⟨hlat, hlon, h0⟩ := main_final_props client env f hf
  rw [main_eq_mainRun client env] at hf ⊢
  obtain ⟨hne, hfeq, hrep, hsucc, hfile, hover, hsave, htrace⟩ := mainRun_some _ _ _ _ hf
  rw [verify_data_char f hlat hlon h0] at hrep hover
  dsimp only at hrep hover
  refine ⟨_, hrep, ?_, rfl, rfl, rfl, rfl, rfl, ?_⟩
  · rw [hover]
  · dsimp only
    cases volumeOk f <;> cases coordinatesOk f <;> cases locationOk f <;>
      cases save_output env f true <;> simp

/-- C10: whenever a final dataset exists, the output files are written
(the very final dataset is handed to the Output Writer) before the
overall success is computed from the check results, and no verification
failure prevents the write: the save and its outcome depend only on the
writer environment and the dataset, and the trace orders the save before
the overall-success computation. -/
theorem dataset_saved_before_success (client : Mode → String → Except String Frame)
    (env : FsEnv) (f : Frame)
    (hf : (POI.main client env).final_df = some f) :
    (POI.main client env).saved_df = some f
    ∧ (POI.main client env).file_saved = save_output env f true
    ∧ (POI.main client env).overall_success
        = ((POI.main client env).success && (POI.main client env).file_saved)
    ∧ (POI.main client env).trace
        = [Step.verified (POI.main client env).success,
            Step.saved (POI.main client env).file_saved,
            Step.overallComputed (POI.main client env).overall_success] := by
  rw [main_eq_mainRun client env] at hf ⊢
  obtain ⟨hne, hfeq, hrep, hsucc, hfile, hover, hsave, htrace⟩ := mainRun_some _ _ _ _ hf
  refine ⟨hsave, hfile, ?_, ?_⟩
  · rw [hover, hsucc, hfile]
  · rw [htrace, hsucc, hfile, hover]

/-- A client that always answers with sixty point-features. -/
def okClient : Mode → String → Except String Frame :=
  fun _ _ => Except.ok (demoFrame 60)

def okEnv : FsEnv := ⟨true, true, true⟩

/-- The final dataframe of the `okClient` run. -/
def okFinal : Frame := ((POI.main okClient okEnv).final_df).getD default

theorem verifier_and_of_four_witness :
    ∃ R, (POI.main okClient okEnv).report = some R
      ∧ (POI.main okClient okEnv).overall_success
          = (R.check_volume && R.check_coordinates && R.check_location_sanity && R.check_file)
      ∧ R.check_volume = volumeOk okFinal
      ∧ R.check_coordinates = coordinatesOk okFinal
      ∧ R.check_location_sanity = locationOk okFinal
      ∧ R.check_file = save_output okEnv okFinal true
      ∧ R.errors = ((if volumeOk okFinal then [] else [volMsg okFinal.rows.length])
          ++ ((if coordinatesOk okFinal then [] else ["No valid coordinates found"])
          ++ (if locationOk okFinal then [] else
              [locationErrMsg (okFinal.colMean "lat") (okFinal.colMean "lon")])))
          ++ (if save_output okEnv okFinal true then [] else ["File creation failed"])
      ∧ R.errors.length
          = (((if R.check_volume then 0 else 1) + (if R.check_coordinates then 0 else 1))
            + (if R.check_location_sanity then 0 else 1)) + (if R.check_file then 0 else 1) :=
  verifier_and_of_four okClient okEnv okFinal rfl

theorem dataset_saved_before_success_witness :
    (POI.main okClient okEnv).saved_df = some okFinal
    ∧ (POI.main okClient okEnv).file_saved = save_output okEnv okFinal true
    ∧ (POI.main okClient okEnv).overall_success
        = ((POI.main okClient okEnv).success && (POI.main okClient okEnv).file_saved)
    ∧ (POI.main okClient okEnv).trace
        = [Step.verified (POI.main okClient okEnv).success,
            Step.saved (POI.main okClient okEnv).file_saved,
            Step.overallComputed (POI.main okClient okEnv).overall_success] :=
  dataset_saved_before_success okClient okEnv okFinal rfl
